import Mathlib

/-!
Shallow embedding of the report service in `src/app_flask.py`
(Flask + SQLite geolocation report API).

Modelling conventions:
* JSON values decoded from a request body are `JVal`; a JSON object is an
  association list `List (String × JVal)` (Python `dict`: first binding wins).
* Python floats are modelled as exact rationals extended with `nan`, `inf`,
  `ninf` (`PyFloat`).  IEEE-754 rounding of decimal literals is not modelled;
  comparisons follow Python semantics (`nan` incomparable).
* Python `float(x)` on a JSON-decoded value is `pyFloat`; the string parser
  `pyStrToFloat` models CPython's accepted grammar (optional ASCII whitespace,
  sign, `inf`/`infinity`/`nan` case-insensitively, decimal mantissa with
  optional fraction, underscore digit separators and exponent).  Non-ASCII
  digits are not modelled.
* Python exceptions are `PyErr` values: `TypeError` and `ValueError` are the
  classes caught by the source's `except (TypeError, ValueError)` blocks;
  `OverflowError` (from `float()` on a too-large integer, or from binding an
  integer outside SQLite's signed 64-bit range) and `ProgrammingError` (from
  binding an unsupported type) are never caught.  An uncaught exception is
  `Except.error e`; Flask turns it into an HTTP 500 response.
* The SQLite table cell values are `SQLVal`; binding a Python value to a SQL
  parameter is `bindVal` (unsupported types and out-of-64-bit integers raise;
  a float `nan` is stored as SQL `NULL`, as SQLite does).
* The two `datetime.utcnow()` readings made by `parse_report_payload` (the
  full-precision default for `fecha` and the second-precision `created_at`)
  are passed in as explicit string parameters `nowFull`, `nowSec`.
-/

set_option autoImplicit false
set_option exponentiation.threshold 1100
set_option maxRecDepth 8000

namespace ReportApp

/-- A JSON value as decoded by Python's `json` module: `null`/`None`,
booleans, integers, non-integral numbers (modelled as exact rationals),
strings, arrays and objects. -/
inductive JVal where
  | null
  | bool (b : Bool)
  | int (n : ℤ)
  | num (q : ℚ)
  | str (s : String)
  | arr (xs : List JVal)
  | obj (fields : List (String × JVal))

/-- A Python float: a finite value (exact rational), `nan`, `+inf` or `-inf`. -/
inductive PyFloat where
  | fin (q : ℚ)
  | nan
  | inf
  | ninf
deriving DecidableEq

/-- Python `x <= y` on floats: `nan` is incomparable with everything. -/
def pyLe (x y : PyFloat) : Bool :=
  match x, y with
  | .nan, _ => false
  | _, .nan => false
  | .ninf, _ => true
  | _, .ninf => false
  | .inf, .inf => true
  | .inf, .fin _ => false
  | .fin _, .inf => true
  | .fin a, .fin b => decide (a ≤ b)

/-- The range check `-90.0 <= lat <= 90.0` from `parse_report_payload`. -/
def latInRange (x : PyFloat) : Bool :=
  pyLe (.fin (-90)) x && pyLe x (.fin 90)

/-- The range check `-180.0 <= lon <= 180.0` from `parse_report_payload`. -/
def lonInRange (x : PyFloat) : Bool :=
  pyLe (.fin (-180)) x && pyLe x (.fin 180)

def isDigitCh (c : Char) : Bool := '0' ≤ c && c ≤ '9'

def digitVal (c : Char) : ℕ := c.toNat - '0'.toNat

/-- ASCII whitespace stripped by Python `float(str)`. -/
def isWs (c : Char) : Bool :=
  c = ' ' || c = '\t' || c = '\n' || c = '\r' || c = '\x0b' || c = '\x0c'

/-- Consume further digits of a digit group, allowing a single `_` between
two digits (Python numeric-literal underscore rule).  Accumulates the value
and the count of digits consumed; returns the unconsumed remainder. -/
def dgAux : List Char → ℕ → ℕ → ℕ × ℕ × List Char
  | [], v, n => (v, n, [])
  | '_' :: c :: rest, v, n =>
      if isDigitCh c then dgAux rest (v * 10 + digitVal c) (n + 1)
      else (v, n, '_' :: c :: rest)
  | c :: rest, v, n =>
      if isDigitCh c then dgAux rest (v * 10 + digitVal c) (n + 1)
      else (v, n, c :: rest)

/-- A digit group: at least one digit, underscores allowed between digits. -/
def digitGroup : List Char → Option (ℕ × ℕ × List Char)
  | c :: rest => if isDigitCh c then some (dgAux rest (digitVal c) 1) else none
  | [] => none

/-- Mantissa of a Python float literal: `digits [. [digits]]` or `. digits`. -/
def parseMantissa (cs : List Char) : Option (ℚ × List Char) :=
  match digitGroup cs with
  | some (v, _, rest) =>
    match rest with
    | '.' :: rest2 =>
      match digitGroup rest2 with
      | some (fv, fn, rest3) => some ((v : ℚ) + (fv : ℚ) / (10 : ℚ) ^ fn, rest3)
      | none => some ((v : ℚ), rest2)
    | _ => some ((v : ℚ), rest)
  | none =>
    match cs with
    | '.' :: rest2 =>
      match digitGroup rest2 with
      | some (fv, fn, rest3) => some ((fv : ℚ) / (10 : ℚ) ^ fn, rest3)
      | none => none
    | _ => none

/-- Optional exponent part `('e'|'E') ['+'|'-'] digits`; returns the scale
factor, or `none` when an `e` is present but malformed. -/
def parseExp (cs : List Char) : Option (ℚ × List Char) :=
  match cs with
  | 'e' :: rest | 'E' :: rest =>
    let (neg, rest2) :=
      match rest with
      | '+' :: r => (false, r)
      | '-' :: r => (true, r)
      | r => (false, r)
    match digitGroup rest2 with
    | some (e, _, rest3) =>
        some (if neg then ((10 : ℚ) ^ e)⁻¹ else (10 : ℚ) ^ e, rest3)
    | none => none
  | cs => some (1, cs)

/-- Strip leading and trailing whitespace. -/
def stripWsL (cs : List Char) : List Char :=
  (((cs.dropWhile isWs).reverse).dropWhile isWs).reverse

/-- The Python exception classes this program can raise.  `typeErr` and
`valueErr` are the classes named in the source's
`except (TypeError, ValueError)` handlers; `overflowErr` (`OverflowError`,
from `float()` on a too-large integer or from binding an out-of-64-bit-range
integer) and `progErr` (`sqlite3.ProgrammingError`, from binding an
unsupported parameter type) are caught nowhere. -/
inductive PyErr where
  | typeErr
  | valueErr
  | overflowErr
  | progErr
deriving DecidableEq

/-- Whether `except (TypeError, ValueError)` catches the exception. -/
def caught : PyErr → Bool
  | .typeErr => true
  | .valueErr => true
  | .overflowErr => false
  | .progErr => false

/-- The smallest magnitude at which CPython `float(n)` raises
`OverflowError` for an integer argument: an integer rounds (half-even)
beyond the largest finite double exactly when its magnitude reaches
`2 ^ 1024 - 2 ^ 970`. -/
def pyFloatIntBound : ℕ := 2 ^ 1024 - 2 ^ 970

/-- Python `float(s)` for a string argument: `Except.error .valueErr` models
`ValueError`.  (A string never raises `OverflowError`: an out-of-range
decimal such as `"1e999"` converts to an infinity; here the exact rational
is kept, which agrees on every comparison the program makes.) -/
def pyStrToFloat (s : String) : Except PyErr PyFloat :=
  let cs := stripWsL s.toList
  let (neg, cs2) :=
    match cs with
    | '+' :: r => (false, r)
    | '-' :: r => (true, r)
    | r => (false, r)
  let low := cs2.map Char.toLower
  if low = "inf".toList || low = "infinity".toList then
    .ok (if neg then .ninf else .inf)
  else if low = "nan".toList then
    .ok .nan
  else
    match parseMantissa cs2 with
    | some (m, rest) =>
      match parseExp rest with
      | some (sc, []) => .ok (.fin ((if neg then -m else m) * sc))
      | _ => .error .valueErr
    | none => .error .valueErr

/-- Python `float(x)` on a JSON-decoded value.  `None`, lists and dicts
raise `TypeError`; an integer whose magnitude reaches `pyFloatIntBound`
(about 1.8e308) raises `OverflowError`, which the source never catches. -/
def pyFloat : JVal → Except PyErr PyFloat
  | .null => .error .typeErr
  | .bool b => .ok (.fin (if b then 1 else 0))
  | .int n => if pyFloatIntBound ≤ n.natAbs then .error .overflowErr else .ok (.fin (n : ℚ))
  | .num q => .ok (.fin q)
  | .str s => pyStrToFloat s
  | .arr _ => .error .typeErr
  | .obj _ => .error .typeErr

/-- `float(x)` where `x` may be Python `None` (the `pick` miss value;
`float(None)` is a `TypeError`). -/
def coerceFloat : Option JVal → Except PyErr PyFloat
  | none => .error .typeErr
  | some v => pyFloat v

/-- Python truthiness of a JSON-decoded value (used by `if not s` in
`clean_b64`). -/
def pyTruthy : JVal → Bool
  | .null => false
  | .bool b => b
  | .int n => decide (n ≠ 0)
  | .num q => decide (q ≠ 0)
  | .str s => !s.isEmpty
  | .arr xs => !xs.isEmpty
  | .obj fs => !fs.isEmpty

/-- Decimal rendering of a rational, used for Python `str` of a JSON float.
Modelled: exact decimal expansion with a forced decimal point (`str(10.0)` is
`"10.0"`); Python's shortest-round-trip repr and its switch to scientific
notation for large magnitudes are not modelled.  A denominator that divides
no power of ten cannot arise from a decoded JSON float; that case falls back
to a fraction rendering. -/
def ratRepr (q : ℚ) : String :=
  let sgn := if q < 0 then "-" else ""
  let a := |q|
  match (List.range 1201).find? (fun k => (a.den : ℕ) ∣ 10 ^ k) with
  | some k =>
    let n := (a * (10 : ℚ) ^ k).num.toNat
    let ip := n / 10 ^ k
    let fp := n % 10 ^ k
    if k = 0 then sgn ++ toString ip ++ ".0"
    else
      let fs := toString fp
      sgn ++ toString ip ++ "." ++ String.mk (List.replicate (k - fs.length) '0') ++ fs
  | none => sgn ++ toString a.num ++ "/" ++ toString a.den

mutual

/-- Python `repr` of a JSON-decoded value (element rendering used by `str`
of containers).  Modelled: quote choice and escaping inside string repr are
not modelled (a plain `'...'` wrapping is used). -/
def pyRepr : JVal → String
  | .null => "None"
  | .bool b => if b then "True" else "False"
  | .int n => toString n
  | .num q => ratRepr q
  | .str s => "'" ++ s ++ "'"
  | .arr xs => "[" ++ pyReprList xs ++ "]"
  | .obj fs => "\x7b" ++ pyReprObj fs ++ "\x7d"

def pyReprList : List JVal → String
  | [] => ""
  | [x] => pyRepr x
  | x :: y :: xs => pyRepr x ++ ", " ++ pyReprList (y :: xs)

def pyReprObj : List (String × JVal) → String
  | [] => ""
  | [(k, v)] => "'" ++ k ++ "': " ++ pyRepr v
  | (k, v) :: p :: fs => "'" ++ k ++ "': " ++ pyRepr v ++ ", " ++ pyReprObj (p :: fs)

end

/-- Python `str(x)` of a JSON-decoded value (`str` of a string is itself;
everything else coincides with `repr`). -/
def pyStrJ : JVal → String
  | .str s => s
  | v => pyRepr v

/-- Drop the literal `l` from the front of `cs`, or fail. -/
def dropLit : List Char → List Char → Option (List Char)
  | [], cs => some cs
  | l :: ls, c :: cs => if c = l then dropLit ls cs else none
  | _ :: _, [] => none

/-- The substitution `DATA_URI_RE.sub("", s)` with
`DATA_URI_RE = re.compile(r"^data:[^;]+;base64,")`: if `s` starts with
`data:`, then a non-empty run of non-`;` characters, then `;base64,`, drop
that leading match; otherwise return `s` unchanged.  (The regex is anchored,
so at most one match is removed, and `[^;]+` necessarily matches the maximal
semicolon-free run.) -/
def stripDataUri (s : String) : String :=
  match dropLit "data:".toList s.toList with
  | none => s
  | some rest =>
    let t := rest.takeWhile (fun c => c ≠ ';')
    if t.isEmpty then s
    else
      match dropLit ";base64,".toList (rest.dropWhile (fun c => c ≠ ';')) with
      | some after => String.mk after
      | none => s

/-- `clean_b64(s)` from the source: Python `None` is the `none` input; a
falsy value (including the empty string) is returned unchanged; a truthy
string has any leading `data:...;base64,` stripped; a truthy non-string
reaches `re.sub`, which raises `TypeError` (uncaught). -/
def clean_b64 : Option JVal → Except PyErr (Option JVal)
  | none => .ok none
  | some w =>
    if pyTruthy w then
      match w with
      | .str s => .ok (some (.str (stripDataUri s)))
      | _ => .error .typeErr
    else .ok (some w)

/-- First binding of key `k` in a decoded JSON object (Python `data[k]`,
with `k in data` as the guard). -/
def jget (data : List (String × JVal)) (k : String) : Option JVal :=
  match data with
  | [] => none
  | (k2, v) :: rest => if k2 = k then some v else jget rest k

/-- The nested `pick(*keys)` helper of `parse_report_payload`: first key
that is present in `data` with a non-`None` value wins; the `default=None`
miss is the `none` result (the one non-`None` default, for `fecha`, is
applied at the call site). -/
def pick (data : List (String × JVal)) : List String → Option JVal
  | [] => none
  | k :: ks =>
    match jget data k with
    | some JVal.null => pick data ks
    | some v => some v
    | none => pick data ks

/-- A Python value held in a field of the normalized payload dict:
`None`, an original JSON value, or the result of a `float(...)` coercion. -/
inductive PyVal where
  | none
  | j (v : JVal)
  | f (x : PyFloat)

def optPy : Option JVal → PyVal
  | Option.none => .none
  | some v => .j v

/-- One `try: x = float(x) except (TypeError, ValueError): errs.append(msg)`
block of `parse_report_payload`: on success the variable becomes the float;
on a caught exception it keeps its picked value and the message is appended;
an uncaught exception (`OverflowError` from a too-large integer)
propagates. -/
def tryCoerce (v : Option JVal) (msg : String) : Except PyErr (PyVal × List String) :=
  match coerceFloat v with
  | .ok x => .ok (.f x, [])
  | .error e => if caught e then .ok (optPy v, [msg]) else .error e

/-- The accuracy block: `if accuracy is not None: try: accuracy =
float(accuracy) except (TypeError, ValueError): accuracy = None`.  A caught
failure silently yields `None`; an uncaught `OverflowError` propagates. -/
def tryAccuracy (v : Option JVal) : Except PyErr PyVal :=
  match v with
  | Option.none => .ok .none
  | some w =>
    match pyFloat w with
    | .ok x => .ok (.f x)
    | .error e => if caught e then .ok .none else .error e

/-- The normalized payload dict built at the end of `parse_report_payload`
(`fecha` and `created_at` are always strings, via `str(fecha)` and
`isoformat`). -/
structure Payload where
  lat : PyVal
  lon : PyVal
  fecha : String
  foto_base64 : PyVal
  mime : PyVal
  filename : PyVal
  accuracy : PyVal
  created_at : String

/-- `parse_report_payload(data)`.  `nowFull` is the
`datetime.utcnow().isoformat()` default for `fecha`, `nowSec` the
`isoformat(timespec="seconds")` reading for `created_at`.  An
`Except.error` outcome is an uncaught exception: `OverflowError` from one
of the three `float()` attempts, or `TypeError` from `clean_b64`; the four
stages run in source order (lat, lon, ranges, accuracy, photo) and the
first uncaught exception wins. -/
def parse_report_payload (data : List (String × JVal)) (nowFull nowSec : String) :
    Except PyErr (Payload × List String) :=
  let latV := pick data ["lat", "latitude"]
  let lonV := pick data ["lon", "longitude"]
  let fechaV := pick data ["fecha", "timestamp"]
  let fotoV := pick data ["foto_base64", "photo_base64"]
  let mimeV := pick data ["mime", "photo_mime_type"]
  let fileV := pick data ["filename", "photo_filename"]
  let accV := pick data ["accuracy", "accuracy_m"]
  match tryCoerce latV "lat/latitude inválida" with
  | .error e => .error e
  | .ok (latR, errsLat) =>
    match tryCoerce lonV "lon/longitude inválida" with
    | .error e => .error e
    | .ok (lonR, errsLon) =>
      let errs1 := errsLat ++ errsLon
      let errs2 :=
        if errs1 = [] then
          (match latR with
           | .f x => if latInRange x then [] else ["lat fuera de rango (-90..90)"]
           | _ => []) ++
          (match lonR with
           | .f y => if lonInRange y then [] else ["lon fuera de rango (-180..180)"]
           | _ => [])
        else []
      match tryAccuracy accV with
      | .error e => .error e
      | .ok accR =>
        match clean_b64 fotoV with
        | .error e => .error e
        | .ok fotoR =>
          .ok ({ lat := latR, lon := lonR,
                 fecha := (match fechaV with
                           | some v => pyStrJ v
                           | Option.none => nowFull),
                 foto_base64 := optPy fotoR,
                 mime := optPy mimeV, filename := optPy fileV,
                 accuracy := accR, created_at := nowSec },
               errs1 ++ errs2)

/-- A SQLite cell value (no BLOBs are ever bound by this app). -/
inductive SQLVal where
  | null
  | int (n : ℤ)
  | real (x : PyFloat)
  | text (s : String)
deriving DecidableEq

/-- SQLite integers are signed 64-bit: the bindable range is
`[-2 ^ 63, 2 ^ 63 - 1]`. -/
def sqliteIntBound : ℕ := 2 ^ 63

/-- Binding one Python value as a SQL parameter.  `None` binds as `NULL`; a
float `nan` is stored as `NULL` (SQLite has no NaN); strings, bools and
signed-64-bit integers bind natively; an integer outside
`[-2^63, 2^63 - 1]` raises `OverflowError`; lists and dicts are unsupported
types and raise `sqlite3.ProgrammingError`.  Both are uncaught (HTTP
500). -/
def bindVal : PyVal → Except PyErr SQLVal
  | .none => .ok .null
  | .f .nan => .ok .null
  | .f x => .ok (.real x)
  | .j (.str s) => .ok (.text s)
  | .j (.int n) =>
    if (if 0 ≤ n then sqliteIntBound ≤ n.natAbs else sqliteIntBound < n.natAbs)
    then .error .overflowErr else .ok (.int n)
  | .j (.num q) => .ok (.real (.fin q))
  | .j (.bool b) => .ok (.int (if b then 1 else 0))
  | .j .null => .ok .null
  | .j (.arr _) => .error .progErr
  | .j (.obj _) => .error .progErr

/-- One row of the `reportes` table (post-`init_db` column set). -/
structure Row where
  id : ℕ
  lat : SQLVal
  lon : SQLVal
  fecha : SQLVal
  foto_base64 : SQLVal
  mime : SQLVal
  filename : SQLVal
  accuracy : SQLVal
  created_at : SQLVal
deriving DecidableEq

/-- The store: `seq` is the `sqlite_sequence` counter backing the
`AUTOINCREMENT` primary key (it survives `DELETE FROM reportes`), `rows` the
table contents.  `issued` is a history variable recording every id the store
has ever returned to a client; it does not influence any operation. -/
structure Store where
  seq : ℕ
  rows : List Row
  issued : List ℕ
deriving DecidableEq

/-- A freshly created database. -/
def init_store : Store := { seq := 0, rows := [], issued := [] }

def maxIdOf (rows : List Row) : ℕ :=
  rows.foldr (fun r m => max r.id m) 0

/-- The id `AUTOINCREMENT` assigns to the next inserted row: one more than
both the largest id ever used (`seq`) and the largest id currently in the
table. -/
def nextId (st : Store) : ℕ := max st.seq (maxIdOf st.rows) + 1

/-- An HTTP JSON response of the `POST /reportes` and `DELETE /borrar_todos`
handlers: status code, the `id` field on 201, the `detalles` list on 400. -/
structure Resp where
  status : ℕ
  rid : Option ℕ
  detalles : Option (List String)
deriving DecidableEq

/-- `crear_reporte` (the `POST /reportes` handler) on a JSON-object body.
An `Except.error` outcome is an uncaught exception (Flask answers 500):
one propagated out of `parse_report_payload`, or a parameter-binding error
in the INSERT (parameters bound in the source's tuple order; `fecha` and
`created_at` are always strings and cannot fail). -/
def crear_reporte (st : Store) (data : List (String × JVal)) (nowFull nowSec : String) :
    Except PyErr (Resp × Store) :=
  match parse_report_payload data nowFull nowSec with
  | .error e => .error e
  | .ok (p, errs) =>
    if errs = [] then
      match bindVal p.lat with
      | .error e => .error e
      | .ok latB =>
      match bindVal p.lon with
      | .error e => .error e
      | .ok lonB =>
      match bindVal p.foto_base64 with
      | .error e => .error e
      | .ok fotoB =>
      match bindVal p.mime with
      | .error e => .error e
      | .ok mimeB =>
      match bindVal p.filename with
      | .error e => .error e
      | .ok fileB =>
      match bindVal p.accuracy with
      | .error e => .error e
      | .ok accB =>
        let rid := nextId st
        let row : Row :=
          { id := rid, lat := latB, lon := lonB, fecha := .text p.fecha,
            foto_base64 := fotoB, mime := mimeB, filename := fileB,
            accuracy := accB, created_at := .text p.created_at }
        .ok ({ status := 201, rid := some rid, detalles := Option.none },
             { seq := rid, rows := st.rows ++ [row], issued := st.issued ++ [rid] })
    else
      .ok ({ status := 400, rid := Option.none, detalles := some errs }, st)

/-- Insert a row into a list kept sorted by descending id. -/
def insertDesc (r : Row) : List Row → List Row
  | [] => [r]
  | x :: xs => if x.id ≤ r.id then r :: x :: xs else x :: insertDesc r xs

/-- Sort rows by descending id (the `ORDER BY id DESC` of the SELECT). -/
def sortDesc : List Row → List Row
  | [] => []
  | x :: xs => insertDesc x (sortDesc xs)

/-- The row filter `WHERE lat IS NOT NULL AND lon IS NOT NULL`. -/
def rowVisible (r : Row) : Bool :=
  !(r.lat == SQLVal.null) && !(r.lon == SQLVal.null)

/-- `listar_reportes` (the `GET /reportes` handler): the returned record
list (each JSON object carries exactly the nine row fields) and the 200
status. -/
def listar_reportes (st : Store) : List Row × ℕ :=
  (sortDesc (st.rows.filter rowVisible), 200)

/-- `borrar_todos` (the `DELETE /borrar_todos` handler): removes every row;
the `AUTOINCREMENT` sequence is untouched. -/
def borrar_todos (st : Store) : Resp × Store :=
  ({ status := 200, rid := Option.none, detalles := Option.none },
   { seq := st.seq, rows := [], issued := st.issued })

/-- Store invariant: every id ever issued is at most the sequence counter. -/
def Inv (st : Store) : Prop := ∀ i ∈ st.issued, i ≤ st.seq

/-- A table at the schema level, for `init_db`: a column list and rows as
per-column cell assignments. -/
structure Table where
  cols : List String
  rows : List (List (String × SQLVal))
deriving DecidableEq

/-- The column set of the `CREATE TABLE` statement in `init_db`. -/
def baseCols : List String :=
  ["id", "lat", "lon", "fecha", "foto_base64", "mime", "filename", "accuracy", "created_at"]

/-- `ALTER TABLE reportes ADD COLUMN c`: appends the column; existing rows
get `NULL` in it. -/
def addCol (t : Table) (c : String) : Table :=
  { cols := t.cols ++ [c], rows := t.rows.map (fun r => r ++ [(c, SQLVal.null)]) }

/-- The `alters` list built by `init_db`: only the four columns added after
the original schema are ever checked. -/
def altersOf (t : Table) : List String :=
  (if "mime" ∈ t.cols then [] else ["mime"]) ++
  (if "filename" ∈ t.cols then [] else ["filename"]) ++
  (if "accuracy" ∈ t.cols then [] else ["accuracy"]) ++
  (if "created_at" ∈ t.cols then [] else ["created_at"])

/-- `init_db()`: `CREATE TABLE IF NOT EXISTS` with the full column set, then
`ALTER TABLE ... ADD COLUMN` for each missing one of `mime`, `filename`,
`accuracy`, `created_at`.  `none` is an absent database. -/
def init_db (db : Option Table) : Table :=
  let t :=
    match db with
    | Option.none => { cols := baseCols, rows := ([] : List (List (String × SQLVal))) }
    | some t0 => t0
  (altersOf t).foldl addCol t

/-- A request body in the legacy client schema carrying the seven field
values. -/
def legacyPayload (v1 v2 v3 v4 v5 v6 v7 : JVal) : List (String × JVal) :=
  [("lat", v1), ("lon", v2), ("fecha", v3), ("foto_base64", v4),
   ("mime", v5), ("filename", v6), ("accuracy", v7)]

/-- The same request body in the current (Flutter) client schema. -/
def currentPayload (v1 v2 v3 v4 v5 v6 v7 : JVal) : List (String × JVal) :=
  [("latitude", v1), ("longitude", v2), ("timestamp", v3), ("photo_base64", v4),
   ("photo_mime_type", v5), ("photo_filename", v6), ("accuracy_m", v7)]

/-! ## Helper lemmas -/

theorem insertDesc_perm (r : Row) (l : List Row) : (insertDesc r l).Perm (r :: l) := by
  induction l with
  | nil => simp [insertDesc]
  | cons x xs ih =>
    by_cases h : x.id ≤ r.id
    · simp [insertDesc, h]
    · simp only [insertDesc, if_neg h]
      exact ((ih.cons x).trans (List.Perm.swap r x xs))

theorem sortDesc_perm (l : List Row) : (sortDesc l).Perm l := by
  induction l with
  | nil => simp [sortDesc]
  | cons x xs ih =>
    exact (insertDesc_perm x (sortDesc xs)).trans (ih.cons x)

theorem insertDesc_pairwise (r : Row) (l : List Row)
    (h : List.Pairwise (fun a b : Row => b.id ≤ a.id) l) :
    List.Pairwise (fun a b : Row => b.id ≤ a.id) (insertDesc r l) := by
  induction l with
  | nil => simp [insertDesc]
  | cons x xs ih =>
    rcases h with _ | ⟨hx, hxs⟩
    by_cases hle : x.id ≤ r.id
    · simp only [insertDesc, if_pos hle]
      exact List.Pairwise.cons
        (by
          intro b hb
          rcases List.mem_cons.mp hb with rfl | hb
          · exact hle
          · exact le_trans (hx b hb) hle)
        (List.Pairwise.cons hx hxs)
    · simp only [insertDesc, if_neg hle]
      refine List.Pairwise.cons ?_ (ih hxs)
      intro b hb
      have hb' := (insertDesc_perm r xs).mem_iff.mp hb
      rcases List.mem_cons.mp hb' with rfl | hb''
      · exact Nat.le_of_not_le hle
      · exact hx b hb''

theorem sortDesc_pairwise (l : List Row) :
    List.Pairwise (fun a b : Row => b.id ≤ a.id) (sortDesc l) := by
  induction l with
  | nil => simp [sortDesc]
  | cons x xs ih => exact insertDesc_pairwise x (sortDesc xs) ih

theorem dropLit_self_append (l r : List Char) : dropLit l (l ++ r) = some r := by
  induction l with
  | nil => rfl
  | cons c cs ih => simp [dropLit, ih]

theorem dropLit_sound (l : List Char) : ∀ cs r, dropLit l cs = some r → cs = l ++ r := by
  induction l with
  | nil => intro cs r h; cases h; rfl
  | cons c cs ih =>
    intro ds r h
    cases ds with
    | nil => exact absurd h (by simp [dropLit])
    | cons d ds =>
      simp only [dropLit] at h
      split at h
      · next heq => simp [heq, ih ds r h]
      · exact absurd h (by simp)

theorem takeWhile_all_append (t : List Char) (c0 : Char) (r : List Char)
    (p : Char → Bool) (ht : ∀ c ∈ t, p c = true) (hc : p c0 = false) :
    (t ++ c0 :: r).takeWhile p = t ∧ (t ++ c0 :: r).dropWhile p = c0 :: r := by
  induction t with
  | nil => simp [List.takeWhile, List.dropWhile, hc]
  | cons a t ih =>
    have ha : p a = true := ht a (by simp)
    have ih' := ih (fun c hc' => ht c (by simp [hc']))
    simp [List.takeWhile, List.dropWhile, ha, ih'.1, ih'.2]

theorem foldl_addCol (l : List String) : ∀ t : Table,
    l.foldl addCol t =
      { cols := t.cols ++ l,
        rows := t.rows.map (fun r => r ++ l.map (fun c => (c, SQLVal.null))) } := by
  induction l with
  | nil =>
    intro t
    simp
  | cons c l ih =>
    intro t
    simp only [List.foldl_cons, ih, addCol, List.map_cons, List.map_map]
    refine congrArg₂ Table.mk (by simp) ?_
    simp [Function.comp]

theorem tryCoerce_ok (v : Option JVal) (msg : String) (x : PyFloat)
    (h : coerceFloat v = .ok x) : tryCoerce v msg = .ok (.f x, []) := by
  simp [tryCoerce, h]

theorem tryCoerce_errCaught (v : Option JVal) (msg : String) (e : PyErr)
    (h : coerceFloat v = .error e) (hc : caught e = true) :
    tryCoerce v msg = .ok (optPy v, [msg]) := by
  simp [tryCoerce, h, hc]

theorem tryCoerce_ok_inv (v : Option JVal) (msg : String) (r : PyVal)
    (es : List String) (h : tryCoerce v msg = .ok (r, es)) (e : PyErr)
    (he : coerceFloat v = .error e) :
    caught e = true ∧ r = optPy v ∧ es = [msg] := by
  simp only [tryCoerce, he] at h
  by_cases hc : caught e = true
  · rw [if_pos hc] at h
    simp only [Except.ok.injEq, Prod.mk.injEq] at h
    exact ⟨hc, h.1.symm, h.2.symm⟩
  · rw [if_neg hc] at h
    exact absurd h (by simp)

theorem tryAccuracy_okF (v : JVal) (x : PyFloat) (h : pyFloat v = .ok x) :
    tryAccuracy (some v) = .ok (.f x) := by
  simp [tryAccuracy, h]

theorem tryAccuracy_errCaught (v : JVal) (e : PyErr)
    (h : pyFloat v = .error e) (hc : caught e = true) :
    tryAccuracy (some v) = .ok .none := by
  simp [tryAccuracy, h, hc]

theorem tryAccuracy_ok_inv (v : JVal) (accR : PyVal)
    (h : tryAccuracy (some v) = .ok accR) (e : PyErr)
    (he : pyFloat v = .error e) : caught e = true := by
  simp only [tryAccuracy, he] at h
  by_cases hc : caught e = true
  · exact hc
  · rw [if_neg hc] at h
    exact absurd h (by simp)

theorem tryAccuracy_shape (o : Option JVal) (accR : PyVal)
    (h : tryAccuracy o = .ok accR) : accR = PyVal.none ∨ ∃ x, accR = PyVal.f x := by
  rcases o with _ | v
  · simp only [tryAccuracy, Except.ok.injEq] at h
    exact Or.inl h.symm
  · rcases hf : pyFloat v with e | x
    · simp only [tryAccuracy, hf] at h
      by_cases hc : caught e = true
      · rw [if_pos hc] at h
        simp only [Except.ok.injEq] at h
        exact Or.inl h.symm
      · rw [if_neg hc] at h
        exact absurd h (by simp)
    · simp only [tryAccuracy, hf, Except.ok.injEq] at h
      exact Or.inr ⟨x, h.symm⟩

theorem parse_eq_of_stages (data : List (String × JVal)) (nF nS : String)
    (latR : PyVal) (errsLat : List String) (lonR : PyVal) (errsLon : List String)
    (accR : PyVal) (fw : Option JVal)
    (h1 : tryCoerce (pick data ["lat", "latitude"]) "lat/latitude inválida" =
      .ok (latR, errsLat))
    (h2 : tryCoerce (pick data ["lon", "longitude"]) "lon/longitude inválida" =
      .ok (lonR, errsLon))
    (h3 : tryAccuracy (pick data ["accuracy", "accuracy_m"]) = .ok accR)
    (h4 : clean_b64 (pick data ["foto_base64", "photo_base64"]) = .ok fw) :
    parse_report_payload data nF nS = .ok
      ({ lat := latR, lon := lonR,
         fecha := (match pick data ["fecha", "timestamp"] with
                   | some v => pyStrJ v
                   | Option.none => nF),
         foto_base64 := optPy fw,
         mime := optPy (pick data ["mime", "photo_mime_type"]),
         filename := optPy (pick data ["filename", "photo_filename"]),
         accuracy := accR, created_at := nS },
       ((errsLat ++ errsLon) ++
        (if errsLat ++ errsLon = [] then
           (match latR with
            | .f x => if latInRange x then [] else ["lat fuera de rango (-90..90)"]
            | _ => []) ++
           (match lonR with
            | .f y => if lonInRange y then [] else ["lon fuera de rango (-180..180)"]
            | _ => [])
         else []))) := by
  simp only [parse_report_payload, h1, h2, h3, h4]

theorem parse_ok_inv (data : List (String × JVal)) (nF nS : String)
    (p : Payload) (errs : List String)
    (hp : parse_report_payload data nF nS = .ok (p, errs)) :
    ∃ latR errsLat lonR errsLon accR fw,
      tryCoerce (pick data ["lat", "latitude"]) "lat/latitude inválida" =
        .ok (latR, errsLat) ∧
      tryCoerce (pick data ["lon", "longitude"]) "lon/longitude inválida" =
        .ok (lonR, errsLon) ∧
      tryAccuracy (pick data ["accuracy", "accuracy_m"]) = .ok accR ∧
      clean_b64 (pick data ["foto_base64", "photo_base64"]) = .ok fw := by
  simp only [parse_report_payload] at hp
  rcases h1 : tryCoerce (pick data ["lat", "latitude"]) "lat/latitude inválida"
    with e | ⟨latR, errsLat⟩
  · simp only [h1] at hp
    exact absurd hp (by simp)
  · simp only [h1] at hp
    rcases h2 : tryCoerce (pick data ["lon", "longitude"]) "lon/longitude inválida"
      with e | ⟨lonR, errsLon⟩
    · simp only [h2] at hp
      exact absurd hp (by simp)
    · simp only [h2] at hp
      rcases h3 : tryAccuracy (pick data ["accuracy", "accuracy_m"]) with e | accR
      · simp only [h3] at hp
        exact absurd hp (by simp)
      · simp only [h3] at hp
        rcases h4 : clean_b64 (pick data ["foto_base64", "photo_base64"]) with e | fw
        · simp only [h4] at hp
          exact absurd hp (by simp)
        · exact ⟨latR, errsLat, lonR, errsLon, accR, fw, rfl, rfl, rfl, rfl⟩

theorem parse_ok_of_coerced (data : List (String × JVal)) (nF nS : String)
    (x y : PyFloat) (accR : PyVal) (fw : Option JVal)
    (hx : coerceFloat (pick data ["lat", "latitude"]) = .ok x)
    (hy : coerceFloat (pick data ["lon", "longitude"]) = .ok y)
    (hacc : tryAccuracy (pick data ["accuracy", "accuracy_m"]) = .ok accR)
    (hf : clean_b64 (pick data ["foto_base64", "photo_base64"]) = .ok fw) :
    parse_report_payload data nF nS = .ok
      ({ lat := .f x, lon := .f y,
         fecha := (match pick data ["fecha", "timestamp"] with
                   | some v => pyStrJ v
                   | Option.none => nF),
         foto_base64 := optPy fw,
         mime := optPy (pick data ["mime", "photo_mime_type"]),
         filename := optPy (pick data ["filename", "photo_filename"]),
         accuracy := accR, created_at := nS },
       ((if latInRange x then [] else ["lat fuera de rango (-90..90)"]) ++
        (if lonInRange y then [] else ["lon fuera de rango (-180..180)"]))) := by
  have hst := parse_eq_of_stages data nF nS (.f x) [] (.f y) [] accR fw
    (tryCoerce_ok _ _ x hx) (tryCoerce_ok _ _ y hy) hacc hf
  simpa using hst

theorem parse_ok_of_latErr (data : List (String × JVal)) (nF nS : String)
    (e : PyErr) (y : PyFloat) (accR : PyVal) (fw : Option JVal)
    (hx : coerceFloat (pick data ["lat", "latitude"]) = .error e)
    (hce : caught e = true)
    (hy : coerceFloat (pick data ["lon", "longitude"]) = .ok y)
    (hacc : tryAccuracy (pick data ["accuracy", "accuracy_m"]) = .ok accR)
    (hf : clean_b64 (pick data ["foto_base64", "photo_base64"]) = .ok fw) :
    ∃ p : Payload, parse_report_payload data nF nS = .ok (p, ["lat/latitude inválida"]) := by
  have hst := parse_eq_of_stages data nF nS (optPy (pick data ["lat", "latitude"]))
    ["lat/latitude inválida"] (.f y) [] accR fw
    (tryCoerce_errCaught _ _ e hx hce) (tryCoerce_ok _ _ y hy) hacc hf
  exact ⟨_, by simpa using hst⟩

theorem parse_ok_of_lonErr (data : List (String × JVal)) (nF nS : String)
    (x : PyFloat) (e : PyErr) (accR : PyVal) (fw : Option JVal)
    (hx : coerceFloat (pick data ["lat", "latitude"]) = .ok x)
    (hy : coerceFloat (pick data ["lon", "longitude"]) = .error e)
    (hce : caught e = true)
    (hacc : tryAccuracy (pick data ["accuracy", "accuracy_m"]) = .ok accR)
    (hf : clean_b64 (pick data ["foto_base64", "photo_base64"]) = .ok fw) :
    ∃ p : Payload, parse_report_payload data nF nS = .ok (p, ["lon/longitude inválida"]) := by
  have hst := parse_eq_of_stages data nF nS (.f x) [] (optPy (pick data ["lon", "longitude"]))
    ["lon/longitude inválida"] accR fw
    (tryCoerce_ok _ _ x hx) (tryCoerce_errCaught _ _ e hy hce) hacc hf
  exact ⟨_, by simpa using hst⟩

theorem parse_ok_of_bothErr (data : List (String × JVal)) (nF nS : String)
    (e1 e2 : PyErr) (accR : PyVal) (fw : Option JVal)
    (hx : coerceFloat (pick data ["lat", "latitude"]) = .error e1)
    (hce1 : caught e1 = true)
    (hy : coerceFloat (pick data ["lon", "longitude"]) = .error e2)
    (hce2 : caught e2 = true)
    (hacc : tryAccuracy (pick data ["accuracy", "accuracy_m"]) = .ok accR)
    (hf : clean_b64 (pick data ["foto_base64", "photo_base64"]) = .ok fw) :
    ∃ p : Payload, parse_report_payload data nF nS =
      .ok (p, ["lat/latitude inválida", "lon/longitude inválida"]) := by
  have hst := parse_eq_of_stages data nF nS (optPy (pick data ["lat", "latitude"]))
    ["lat/latitude inválida"] (optPy (pick data ["lon", "longitude"]))
    ["lon/longitude inválida"] accR fw
    (tryCoerce_errCaught _ _ e1 hx hce1) (tryCoerce_errCaught _ _ e2 hy hce2) hacc hf
  exact ⟨_, by simpa using hst⟩

theorem latInRange_fin (x : PyFloat) (h : latInRange x = true) : ∃ q : ℚ, x = .fin q := by
  cases x <;> simp_all [latInRange, pyLe]

theorem lonInRange_fin (x : PyFloat) (h : lonInRange x = true) : ∃ q : ℚ, x = .fin q := by
  cases x <;> simp_all [lonInRange, pyLe]

theorem bindVal_f (a : PyFloat) : ∃ b, bindVal (PyVal.f a) = .ok b := by
  cases a <;> exact ⟨_, rfl⟩

theorem bindVal_of_acc (accR : PyVal)
    (h : accR = PyVal.none ∨ ∃ x, accR = PyVal.f x) :
    ∃ ab, bindVal accR = .ok ab := by
  rcases h with rfl | ⟨x, rfl⟩
  · exact ⟨_, rfl⟩
  · exact bindVal_f x

theorem crear_ok_of (st : Store) (data : List (String × JVal)) (nF nS : String)
    (p : Payload) (latB lonB fotoB mimeB fileB accB : SQLVal)
    (hp : parse_report_payload data nF nS = .ok (p, []))
    (h1 : bindVal p.lat = .ok latB) (h2 : bindVal p.lon = .ok lonB)
    (h3 : bindVal p.foto_base64 = .ok fotoB) (h4 : bindVal p.mime = .ok mimeB)
    (h5 : bindVal p.filename = .ok fileB) (h6 : bindVal p.accuracy = .ok accB) :
    crear_reporte st data nF nS =
      .ok ({ status := 201, rid := some (nextId st), detalles := Option.none },
           { seq := nextId st,
             rows := st.rows ++
               [{ id := nextId st, lat := latB, lon := lonB, fecha := .text p.fecha,
                  foto_base64 := fotoB, mime := mimeB, filename := fileB,
                  accuracy := accB, created_at := .text p.created_at }],
             issued := st.issued ++ [nextId st] }) := by
  simp [crear_reporte, hp, h1, h2, h3, h4, h5, h6]

theorem crear_400_of (st : Store) (data : List (String × JVal)) (nF nS : String)
    (p : Payload) (errs : List String)
    (hp : parse_report_payload data nF nS = .ok (p, errs)) (hne : errs ≠ []) :
    crear_reporte st data nF nS =
      .ok ({ status := 400, rid := Option.none, detalles := some errs }, st) := by
  simp [crear_reporte, hp, hne]

theorem clean_b64_ok_iff (o : Option JVal) :
    (∃ w, clean_b64 o = .ok w) ↔
      (match o with
       | Option.none => True
       | some v => pyTruthy v = false ∨ ∃ s, v = JVal.str s) := by
  cases o with
  | none => simp [clean_b64]
  | some v =>
    by_cases ht : pyTruthy v
    · cases v <;> simp_all [clean_b64]
    · simp_all [clean_b64]

/-! ## Claim theorems -/

/-- C1 (amended): for a payload whose coordinates coerce and lie in range —
provided the auxiliary fields raise no exception, i.e. the resolved photo
value is absent, falsy, or a string, the accuracy value is absent or its
`float()` succeeds or fails with a caught `TypeError`/`ValueError` (not the
uncaught `OverflowError` of a too-large integer), and the photo/mime/
filename values bind to SQLite types — `POST /reportes` answers 201 with
the freshly assigned id, and that id is strictly greater than every id the
store has ever issued; the `AUTOINCREMENT` sequence survives
`DELETE /borrar_todos`, so ids are never reused even after a delete-all.
(As originally stated the claim fails: a valid-coordinate payload can still
get a 500 from an exception on an auxiliary field — a truthy non-string
photo value, an accuracy integer of magnitude at least `2 ^ 1024 - 2 ^ 970`,
or a field value outside SQLite's bindable types — see the
counterexample.) -/
theorem claim1_valid_coords_fresh_monotone_id
    (st : Store) (data : List (String × JVal)) (nF nS : String)
    (x y : PyFloat) (accR : PyVal) (fw : Option JVal) (fb mb fib : SQLVal)
    (hInv : Inv st)
    (hx : coerceFloat (pick data ["lat", "latitude"]) = .ok x)
    (hxr : latInRange x = true)
    (hy : coerceFloat (pick data ["lon", "longitude"]) = .ok y)
    (hyr : lonInRange y = true)
    (hacc : tryAccuracy (pick data ["accuracy", "accuracy_m"]) = .ok accR)
    (hf : clean_b64 (pick data ["foto_base64", "photo_base64"]) = .ok fw)
    (hfb : bindVal (optPy fw) = .ok fb)
    (hmb : bindVal (optPy (pick data ["mime", "photo_mime_type"])) = .ok mb)
    (hfib : bindVal (optPy (pick data ["filename", "photo_filename"])) = .ok fib) :
    (∃ st' : Store,
      crear_reporte st data nF nS =
        .ok ({ status := 201, rid := some (nextId st), detalles := Option.none }, st') ∧
      (∀ i ∈ st.issued, i < nextId st) ∧
      st'.seq = nextId st ∧ st'.issued = st.issued ++ [nextId st] ∧ Inv st') ∧
    (∀ s : Store, (borrar_todos s).2.seq = s.seq ∧ (borrar_todos s).2.issued = s.issued) := by
  obtain ⟨qx, rfl⟩ := latInRange_fin x hxr
  obtain ⟨qy, rfl⟩ := lonInRange_fin y hyr
  have hp0 := parse_ok_of_coerced data nF nS _ _ accR fw hx hy hacc hf
  rw [if_pos hxr, if_pos hyr, List.append_nil] at hp0
  obtain ⟨ab, hab⟩ := bindVal_of_acc accR (tryAccuracy_shape _ accR hacc)
  have hins := crear_ok_of st data nF nS _
    (SQLVal.real (.fin qx)) (SQLVal.real (.fin qy)) fb mb fib ab
    hp0 rfl rfl hfb hmb hfib hab
  refine ⟨⟨_, hins, ?_, rfl, rfl, ?_⟩, fun s => ⟨rfl, rfl⟩⟩
  · intro i hi
    show i < max st.seq (maxIdOf st.rows) + 1
    exact Nat.lt_succ_of_le (le_trans (hInv i hi) (Nat.le_max_left _ _))
  · intro i hi
    show i ≤ nextId st
    rw [List.mem_append] at hi
    rcases hi with hi | hi
    · show i ≤ max st.seq (maxIdOf st.rows) + 1
      exact le_trans (le_trans (hInv i hi) (Nat.le_max_left _ _)) (Nat.le_succ _)
    · simp only [List.mem_singleton] at hi
      exact hi.le

/-- C1 witness: a concrete store that has issued ids 3 and 5 hands out id 6
on the next valid insert. -/
theorem claim1_witness :
    Inv ⟨5, [], [3, 5]⟩ ∧
    ((∃ st' : Store,
        crear_reporte ⟨5, [], [3, 5]⟩
            [("lat", JVal.num (101/10)), ("lon", JVal.num (-748/10))] "N" "S" =
          .ok ({ status := 201, rid := some (nextId ⟨5, [], [3, 5]⟩),
                 detalles := Option.none }, st') ∧
        (∀ i ∈ (⟨5, [], [3, 5]⟩ : Store).issued, i < nextId ⟨5, [], [3, 5]⟩) ∧
        st'.seq = nextId ⟨5, [], [3, 5]⟩ ∧
        st'.issued = (⟨5, [], [3, 5]⟩ : Store).issued ++ [nextId ⟨5, [], [3, 5]⟩] ∧
        Inv st') ∧
      (∀ s : Store, (borrar_todos s).2.seq = s.seq ∧ (borrar_todos s).2.issued = s.issued)) :=
  ⟨by unfold Inv; decide,
   claim1_valid_coords_fresh_monotone_id ⟨5, [], [3, 5]⟩
     [("lat", JVal.num (101/10)), ("lon", JVal.num (-748/10))] "N" "S"
     (.fin (101/10)) (.fin (-748/10)) PyVal.none Option.none
     SQLVal.null SQLVal.null SQLVal.null
     (by unfold Inv; decide) rfl (by norm_num [latInRange, pyLe]) rfl
     (by norm_num [lonInRange, pyLe]) rfl rfl rfl rfl rfl⟩

/-- C1 counterexample: the claim as stated is false — each of these two
payloads has coordinates that parse and lie in range, yet `POST /reportes`
does not answer 201: the first raises `TypeError` in `clean_b64` on the
truthy non-string photo value, the second raises `OverflowError` at
`float(accuracy)` on an integer too large for a double (both HTTP 500). -/
theorem claim1_counterexample :
    coerceFloat (pick [("lat", JVal.int 0), ("lon", JVal.int 0), ("foto_base64", JVal.int 7)]
        ["lat", "latitude"]) = .ok (.fin 0) ∧
    latInRange (.fin 0) = true ∧
    coerceFloat (pick [("lat", JVal.int 0), ("lon", JVal.int 0), ("foto_base64", JVal.int 7)]
        ["lon", "longitude"]) = .ok (.fin 0) ∧
    lonInRange (.fin 0) = true ∧
    crear_reporte init_store
      [("lat", JVal.int 0), ("lon", JVal.int 0), ("foto_base64", JVal.int 7)] "N" "S" =
      .error .typeErr ∧
    crear_reporte init_store
      [("lat", JVal.int 1), ("lon", JVal.int 2), ("accuracy", JVal.int ((10 ^ 400 : ℕ) : ℤ))] "N" "S" =
      .error .overflowErr :=
  ⟨rfl, by decide, rfl, by decide, rfl, rfl⟩

/-- C2 (amended): when both coordinates coerce but at least one is out of
range — and neither the photo value nor the accuracy value raises an
uncaught exception (photo absent, falsy, or a string; accuracy absent or
not a too-large integer) — the handler answers 400 with exactly one range
message per out-of-range field and nothing else, and returns the store
unchanged (no row inserted).  (As originally stated the claim fails: a
truthy non-string photo value, or an accuracy integer of magnitude at least
`2 ^ 1024 - 2 ^ 970`, turns the response into a 500, see the
counterexample.) -/
theorem claim2_out_of_range_400_store_unchanged
    (st : Store) (data : List (String × JVal)) (nF nS : String)
    (x y : PyFloat) (accR : PyVal) (fw : Option JVal)
    (hx : coerceFloat (pick data ["lat", "latitude"]) = .ok x)
    (hy : coerceFloat (pick data ["lon", "longitude"]) = .ok y)
    (hacc : tryAccuracy (pick data ["accuracy", "accuracy_m"]) = .ok accR)
    (hf : clean_b64 (pick data ["foto_base64", "photo_base64"]) = .ok fw)
    (hout : latInRange x = false ∨ lonInRange y = false) :
    crear_reporte st data nF nS =
      .ok ({ status := 400, rid := Option.none,
             detalles := some
               ((if latInRange x then [] else ["lat fuera de rango (-90..90)"]) ++
                (if lonInRange y then [] else ["lon fuera de rango (-180..180)"])) }, st) := by
  have hp0 := parse_ok_of_coerced data nF nS x y accR fw hx hy hacc hf
  apply crear_400_of st data nF nS _ _ hp0
  rcases hout with h | h <;> simp [h]

/-- C2 witness: `lat = 91` yields 400 with exactly the latitude range
message and an unchanged store. -/
theorem claim2_witness :
    crear_reporte init_store [("lat", JVal.int 91), ("lon", JVal.int 0)] "N" "S" =
      .ok ({ status := 400, rid := Option.none,
             detalles := some
               ((if latInRange (.fin 91) then [] else ["lat fuera de rango (-90..90)"]) ++
                (if lonInRange (.fin 0) then [] else ["lon fuera de rango (-180..180)"])) },
           init_store) :=
  claim2_out_of_range_400_store_unchanged init_store
    [("lat", JVal.int 91), ("lon", JVal.int 0)] "N" "S"
    (.fin 91) (.fin 0) PyVal.none Option.none rfl rfl rfl rfl (Or.inl (by decide))

/-- C2 counterexample: the claim as stated is false — each of these two
payloads has a parsed latitude of 100 (out of range), yet the endpoint does
not answer 400: the first raises `TypeError` on the truthy non-string photo
value, the second raises `OverflowError` at `float(accuracy)` (both HTTP
500). -/
theorem claim2_counterexample :
    coerceFloat (pick [("lat", JVal.int 100), ("lon", JVal.int 0), ("foto_base64", JVal.int 7)]
        ["lat", "latitude"]) = .ok (.fin 100) ∧
    latInRange (.fin 100) = false ∧
    crear_reporte init_store
      [("lat", JVal.int 100), ("lon", JVal.int 0), ("foto_base64", JVal.int 7)] "N" "S" =
      .error .typeErr ∧
    crear_reporte init_store
      [("lat", JVal.int 100), ("lon", JVal.int 0), ("accuracy", JVal.int ((10 ^ 400 : ℕ) : ℤ))] "N" "S" =
      .error .overflowErr :=
  ⟨rfl, by decide, rfl, rfl⟩

/-- C7 (amended): a payload with valid coordinates whose accuracy value
fails float coercion with a caught exception class (`TypeError` or
`ValueError`, e.g. a non-numeric string — not the uncaught `OverflowError`
of a too-large integer) — and whose photo/mime/filename values are
storable — is accepted with 201, no error message, and the stored row's
`accuracy` is SQL `NULL`; the invalid accuracy is never surfaced.  (As
originally stated the claim fails: an accuracy value of `10 ^ 400` also
fails float coercion, yet yields a 500, and so does a truthy non-string
photo value alongside a bad accuracy, see the counterexample.) -/
theorem claim7_invalid_accuracy_dropped_silently
    (st : Store) (data : List (String × JVal)) (nF nS : String)
    (x y : PyFloat) (fw : Option JVal) (fb mb fib : SQLVal) (v : JVal) (e : PyErr)
    (hx : coerceFloat (pick data ["lat", "latitude"]) = .ok x)
    (hxr : latInRange x = true)
    (hy : coerceFloat (pick data ["lon", "longitude"]) = .ok y)
    (hyr : lonInRange y = true)
    (hf : clean_b64 (pick data ["foto_base64", "photo_base64"]) = .ok fw)
    (hfb : bindVal (optPy fw) = .ok fb)
    (hmb : bindVal (optPy (pick data ["mime", "photo_mime_type"])) = .ok mb)
    (hfib : bindVal (optPy (pick data ["filename", "photo_filename"])) = .ok fib)
    (hacc : pick data ["accuracy", "accuracy_m"] = some v)
    (haccf : pyFloat v = .error e)
    (hcaught : caught e = true) :
    ∃ (st' : Store) (row : Row),
      crear_reporte st data nF nS =
        .ok ({ status := 201, rid := some (nextId st), detalles := Option.none }, st') ∧
      st'.rows = st.rows ++ [row] ∧ row.accuracy = SQLVal.null := by
  obtain ⟨qx, rfl⟩ := latInRange_fin x hxr
  obtain ⟨qy, rfl⟩ := lonInRange_fin y hyr
  have hacc' : tryAccuracy (pick data ["accuracy", "accuracy_m"]) = .ok PyVal.none := by
    rw [hacc]
    exact tryAccuracy_errCaught v e haccf hcaught
  have hp0 := parse_ok_of_coerced data nF nS _ _ PyVal.none fw hx hy hacc' hf
  rw [if_pos hxr, if_pos hyr, List.append_nil] at hp0
  have hins := crear_ok_of st data nF nS _
    (SQLVal.real (.fin qx)) (SQLVal.real (.fin qy)) fb mb fib SQLVal.null
    hp0 rfl rfl hfb hmb hfib rfl
  exact ⟨_, _, hins, rfl, rfl⟩

/-- C7 witness: the spec's example, `accuracy = "bad"` (a `ValueError`,
which the source catches) with valid coordinates, is stored with a null
accuracy and answered 201. -/
theorem claim7_witness :
    pyFloat (JVal.str "bad") = .error .valueErr ∧ caught .valueErr = true ∧
    (∃ (st' : Store) (row : Row),
      crear_reporte init_store
          [("lat", JVal.int 1), ("lon", JVal.int 2), ("accuracy", JVal.str "bad")] "N" "S" =
        .ok ({ status := 201, rid := some (nextId init_store), detalles := Option.none }, st') ∧
      st'.rows = init_store.rows ++ [row] ∧ row.accuracy = SQLVal.null) :=
  ⟨rfl, rfl,
   claim7_invalid_accuracy_dropped_silently init_store
     [("lat", JVal.int 1), ("lon", JVal.int 2), ("accuracy", JVal.str "bad")] "N" "S"
     (.fin 1) (.fin 2) Option.none SQLVal.null SQLVal.null SQLVal.null
     (JVal.str "bad") PyErr.valueErr
     rfl (by decide) rfl (by decide) rfl rfl rfl rfl rfl rfl rfl⟩

/-- C7 counterexample: the claim as stated is false — an accuracy of
`10 ^ 400` fails float coercion (`OverflowError`), yet the request is not
accepted with 201: the exception is not caught and the endpoint answers
500; a truthy non-string photo value alongside a bad accuracy gives the
same outcome. -/
theorem claim7_counterexample :
    pyFloat (JVal.int ((10 ^ 400 : ℕ) : ℤ)) = .error .overflowErr ∧
    crear_reporte init_store
      [("lat", JVal.int 3), ("lon", JVal.int 4), ("accuracy", JVal.int ((10 ^ 400 : ℕ) : ℤ))] "N" "S" =
      .error .overflowErr ∧
    pyFloat (JVal.str "bad") = .error .valueErr ∧
    crear_reporte init_store
      [("lat", JVal.num (101/10)), ("lon", JVal.num (-748/10)),
       ("accuracy", JVal.str "bad"), ("foto_base64", JVal.int 9)] "N" "S" =
      .error .typeErr :=
  ⟨rfl, rfl, rfl, rfl⟩

/-- C3: when a coordinate fails float coercion, the normalizer's returned
error list carries the field-specific coercion message and no range message
at all; a range message can only appear when both coercions succeeded. -/
theorem claim3_coercion_failure_skips_range_checks
    (data : List (String × JVal)) (nF nS : String) (p : Payload) (errs : List String)
    (hp : parse_report_payload data nF nS = .ok (p, errs)) :
    (∀ e : PyErr, coerceFloat (pick data ["lat", "latitude"]) = .error e →
      "lat/latitude inválida" ∈ errs ∧
      "lat fuera de rango (-90..90)" ∉ errs ∧
      "lon fuera de rango (-180..180)" ∉ errs) ∧
    (∀ e : PyErr, coerceFloat (pick data ["lon", "longitude"]) = .error e →
      "lon/longitude inválida" ∈ errs ∧
      "lat fuera de rango (-90..90)" ∉ errs ∧
      "lon fuera de rango (-180..180)" ∉ errs) ∧
    (("lat fuera de rango (-90..90)" ∈ errs ∨ "lon fuera de rango (-180..180)" ∈ errs) →
      ∃ x y, coerceFloat (pick data ["lat", "latitude"]) = .ok x ∧
             coerceFloat (pick data ["lon", "longitude"]) = .ok y) := by
  obtain ⟨latR, errsLat, lonR, errsLon, accR, fw, h1, h2, h3, h4⟩ :=
    parse_ok_inv data nF nS p errs hp
  refine ⟨?_, ?_, ?_⟩
  · intro e he
    obtain ⟨hce, -, -⟩ := tryCoerce_ok_inv _ _ _ _ h1 e he
    rcases hy : coerceFloat (pick data ["lon", "longitude"]) with e2 | y
    · obtain ⟨hce2, -, -⟩ := tryCoerce_ok_inv _ _ _ _ h2 e2 hy
      obtain ⟨p', hps⟩ := parse_ok_of_bothErr data nF nS e e2 accR fw he hce hy hce2 h3 h4
      have h2' := hp.symm.trans hps
      simp only [Except.ok.injEq, Prod.mk.injEq] at h2'
      rw [h2'.2]
      exact ⟨by decide, by decide, by decide⟩
    · obtain ⟨p', hps⟩ := parse_ok_of_latErr data nF nS e y accR fw he hce hy h3 h4
      have h2' := hp.symm.trans hps
      simp only [Except.ok.injEq, Prod.mk.injEq] at h2'
      rw [h2'.2]
      exact ⟨by decide, by decide, by decide⟩
  · intro e he
    obtain ⟨hce, -, -⟩ := tryCoerce_ok_inv _ _ _ _ h2 e he
    rcases hx : coerceFloat (pick data ["lat", "latitude"]) with e1 | x
    · obtain ⟨hce1, -, -⟩ := tryCoerce_ok_inv _ _ _ _ h1 e1 hx
      obtain ⟨p', hps⟩ := parse_ok_of_bothErr data nF nS e1 e accR fw hx hce1 he hce h3 h4
      have h2' := hp.symm.trans hps
      simp only [Except.ok.injEq, Prod.mk.injEq] at h2'
      rw [h2'.2]
      exact ⟨by decide, by decide, by decide⟩
    · obtain ⟨p', hps⟩ := parse_ok_of_lonErr data nF nS x e accR fw hx he hce h3 h4
      have h2' := hp.symm.trans hps
      simp only [Except.ok.injEq, Prod.mk.injEq] at h2'
      rw [h2'.2]
      exact ⟨by decide, by decide, by decide⟩
  · intro hmem
    rcases hx : coerceFloat (pick data ["lat", "latitude"]) with e1 | x
    · obtain ⟨hce1, -, -⟩ := tryCoerce_ok_inv _ _ _ _ h1 e1 hx
      rcases hy : coerceFloat (pick data ["lon", "longitude"]) with e2 | y
      · obtain ⟨hce2, -, -⟩ := tryCoerce_ok_inv _ _ _ _ h2 e2 hy
        obtain ⟨p', hps⟩ := parse_ok_of_bothErr data nF nS e1 e2 accR fw hx hce1 hy hce2 h3 h4
        have h2' := hp.symm.trans hps
        simp only [Except.ok.injEq, Prod.mk.injEq] at h2'
        rw [h2'.2] at hmem
        exact absurd hmem (by decide)
      · obtain ⟨p', hps⟩ := parse_ok_of_latErr data nF nS e1 y accR fw hx hce1 hy h3 h4
        have h2' := hp.symm.trans hps
        simp only [Except.ok.injEq, Prod.mk.injEq] at h2'
        rw [h2'.2] at hmem
        exact absurd hmem (by decide)
    · rcases hy : coerceFloat (pick data ["lon", "longitude"]) with e2 | y
      · obtain ⟨hce2, -, -⟩ := tryCoerce_ok_inv _ _ _ _ h2 e2 hy
        obtain ⟨p', hps⟩ := parse_ok_of_lonErr data nF nS x e2 accR fw hx hy hce2 h3 h4
        have h2' := hp.symm.trans hps
        simp only [Except.ok.injEq, Prod.mk.injEq] at h2'
        rw [h2'.2] at hmem
        exact absurd hmem (by decide)
      · exact ⟨x, y, rfl, rfl⟩

/-- C3 witness: the spec's example `lat = "not-a-number"`, `lon = -74.8`
yields exactly the coercion error and no range message. -/
theorem claim3_witness :
    parse_report_payload [("lat", JVal.str "not-a-number"), ("lon", JVal.num (-748/10))]
        "N" "S" =
      .ok ({ lat := PyVal.j (JVal.str "not-a-number"), lon := PyVal.f (.fin (-748/10)),
             fecha := "N", foto_base64 := PyVal.none, mime := PyVal.none,
             filename := PyVal.none, accuracy := PyVal.none, created_at := "S" },
           ["lat/latitude inválida"]) ∧
    ("lat/latitude inválida" ∈ ["lat/latitude inválida"] ∧
     "lat fuera de rango (-90..90)" ∉ ["lat/latitude inválida"] ∧
     "lon fuera de rango (-180..180)" ∉ ["lat/latitude inválida"]) :=
  ⟨rfl,
   (claim3_coercion_failure_skips_range_checks
      [("lat", JVal.str "not-a-number"), ("lon", JVal.num (-748/10))] "N" "S"
      { lat := PyVal.j (JVal.str "not-a-number"), lon := PyVal.f (.fin (-748/10)),
        fecha := "N", foto_base64 := PyVal.none, mime := PyVal.none,
        filename := PyVal.none, accuracy := PyVal.none, created_at := "S" }
      ["lat/latitude inválida"] rfl).1 PyErr.valueErr rfl⟩

/-- C5: per-field key resolution tries the legacy key first and falls back
to the current-schema key, treating an explicit JSON `null` as absent; a
legacy-schema payload and a current-schema payload carrying the same seven
values normalize identically. -/
theorem claim5_legacy_first_fallback_equivalence :
    (∀ (data : List (String × JVal)) (k1 k2 : String) (v : JVal),
      jget data k1 = some v → v ≠ JVal.null → pick data [k1, k2] = some v) ∧
    (∀ (data : List (String × JVal)) (k1 k2 : String),
      (jget data k1 = none ∨ jget data k1 = some JVal.null) →
      pick data [k1, k2] = pick data [k2]) ∧
    (∀ (v1 v2 v3 v4 v5 v6 v7 : JVal) (nF nS : String),
      parse_report_payload (legacyPayload v1 v2 v3 v4 v5 v6 v7) nF nS =
        parse_report_payload (currentPayload v1 v2 v3 v4 v5 v6 v7) nF nS) := by
  refine ⟨?_, ?_, fun v1 v2 v3 v4 v5 v6 v7 nF nS => rfl⟩
  · intro data k1 k2 v hj hv
    cases v <;> simp [pick, hj]
    exact absurd rfl hv
  · intro data k1 k2 hj
    rcases hj with hj | hj <;> simp [pick, hj]

/-- C5 witness: a present, non-null legacy key wins. -/
theorem claim5_witness :
    jget [("lat", JVal.int 3), ("latitude", JVal.int 9)] "lat" = some (JVal.int 3) ∧
    pick [("lat", JVal.int 3), ("latitude", JVal.int 9)] ["lat", "latitude"] =
      some (JVal.int 3) :=
  ⟨rfl,
   claim5_legacy_first_fallback_equivalence.1
     [("lat", JVal.int 3), ("latitude", JVal.int 9)] "lat" "latitude"
     (JVal.int 3) rfl (by intro h; cases h)⟩

/-- C9 (amended): the normalizer returns — a record, or an error list drawn
from the four coordinate messages — rather than raising, exactly when every
`float()` it attempts either succeeds or fails with a caught
`TypeError`/`ValueError` (so no lat, lon or accuracy value is an integer of
magnitude at least `2 ^ 1024 - 2 ^ 970`, whose `float()` raises an uncaught
`OverflowError`) and the resolved photo value is absent, falsy, or a
string.  (As originally stated — total for arbitrary JSON values — the
claim fails: a truthy non-string photo value raises `TypeError` in
`re.sub`, and a too-large coordinate or accuracy integer raises
`OverflowError`.) -/
theorem claim9_normalizer_totality_characterized
    (data : List (String × JVal)) (nF nS : String) :
    ((∃ r, parse_report_payload data nF nS = .ok r) ↔
      ((∀ e : PyErr, coerceFloat (pick data ["lat", "latitude"]) = .error e →
          caught e = true) ∧
       (∀ e : PyErr, coerceFloat (pick data ["lon", "longitude"]) = .error e →
          caught e = true) ∧
       (∀ (v : JVal) (e : PyErr), pick data ["accuracy", "accuracy_m"] = some v →
          pyFloat v = .error e → caught e = true) ∧
       (match pick data ["foto_base64", "photo_base64"] with
        | Option.none => True
        | some v => pyTruthy v = false ∨ ∃ s, v = JVal.str s))) ∧
    (∀ (p : Payload) (errs : List String),
      parse_report_payload data nF nS = .ok (p, errs) →
      ∀ e ∈ errs,
        e = "lat/latitude inválida" ∨ e = "lon/longitude inválida" ∨
        e = "lat fuera de rango (-90..90)" ∨ e = "lon fuera de rango (-180..180)") := by
  constructor
  · constructor
    · rintro ⟨⟨p, errs⟩, hp⟩
      obtain ⟨latR, errsLat, lonR, errsLon, accR, fw, h1, h2, h3, h4⟩ :=
        parse_ok_inv data nF nS p errs hp
      refine ⟨?_, ?_, ?_, ?_⟩
      · intro e he
        exact (tryCoerce_ok_inv _ _ _ _ h1 e he).1
      · intro e he
        exact (tryCoerce_ok_inv _ _ _ _ h2 e he).1
      · intro v e hv hpf
        rw [hv] at h3
        exact tryAccuracy_ok_inv v accR h3 e hpf
      · exact (clean_b64_ok_iff (pick data ["foto_base64", "photo_base64"])).mp ⟨fw, h4⟩
    · rintro ⟨hlat, hlon, hacc, hfoto⟩
      obtain ⟨fw, h4⟩ :=
        (clean_b64_ok_iff (pick data ["foto_base64", "photo_base64"])).mpr hfoto
      have hex1 : ∃ latR errsLat,
          tryCoerce (pick data ["lat", "latitude"]) "lat/latitude inválida" =
            .ok (latR, errsLat) := by
        rcases hx : coerceFloat (pick data ["lat", "latitude"]) with e | x
        · exact ⟨_, _, tryCoerce_errCaught _ _ e hx (hlat e hx)⟩
        · exact ⟨_, _, tryCoerce_ok _ _ x hx⟩
      obtain ⟨latR, errsLat, h1⟩ := hex1
      have hex2 : ∃ lonR errsLon,
          tryCoerce (pick data ["lon", "longitude"]) "lon/longitude inválida" =
            .ok (lonR, errsLon) := by
        rcases hy : coerceFloat (pick data ["lon", "longitude"]) with e | y
        · exact ⟨_, _, tryCoerce_errCaught _ _ e hy (hlon e hy)⟩
        · exact ⟨_, _, tryCoerce_ok _ _ y hy⟩
      obtain ⟨lonR, errsLon, h2⟩ := hex2
      have hex3 : ∃ accR, tryAccuracy (pick data ["accuracy", "accuracy_m"]) = .ok accR := by
        rcases hv : pick data ["accuracy", "accuracy_m"] with _ | v
        · exact ⟨_, rfl⟩
        · rcases hf2 : pyFloat v with e | a
          · exact ⟨_, tryAccuracy_errCaught v e hf2 (hacc v e hv hf2)⟩
          · exact ⟨_, tryAccuracy_okF v a hf2⟩
      obtain ⟨accR, h3⟩ := hex3
      exact ⟨_, parse_eq_of_stages data nF nS latR errsLat lonR errsLon accR fw h1 h2 h3 h4⟩
  · intro p errs hp e he
    obtain ⟨latR, errsLat, lonR, errsLon, accR, fw, h1, h2, h3, h4⟩ :=
      parse_ok_inv data nF nS p errs hp
    rcases hx : coerceFloat (pick data ["lat", "latitude"]) with e1 | x
    · obtain ⟨hce1, -, -⟩ := tryCoerce_ok_inv _ _ _ _ h1 e1 hx
      rcases hy : coerceFloat (pick data ["lon", "longitude"]) with e2 | y
      · obtain ⟨hce2, -, -⟩ := tryCoerce_ok_inv _ _ _ _ h2 e2 hy
        obtain ⟨p', hps⟩ := parse_ok_of_bothErr data nF nS e1 e2 accR fw hx hce1 hy hce2 h3 h4
        have h2' := hp.symm.trans hps
        simp only [Except.ok.injEq, Prod.mk.injEq] at h2'
        rw [h2'.2] at he
        simp only [List.mem_cons, List.not_mem_nil, or_false] at he
        tauto
      · obtain ⟨p', hps⟩ := parse_ok_of_latErr data nF nS e1 y accR fw hx hce1 hy h3 h4
        have h2' := hp.symm.trans hps
        simp only [Except.ok.injEq, Prod.mk.injEq] at h2'
        rw [h2'.2] at he
        simp only [List.mem_cons, List.not_mem_nil, or_false] at he
        tauto
    · rcases hy : coerceFloat (pick data ["lon", "longitude"]) with e2 | y
      · obtain ⟨hce2, -, -⟩ := tryCoerce_ok_inv _ _ _ _ h2 e2 hy
        obtain ⟨p', hps⟩ := parse_ok_of_lonErr data nF nS x e2 accR fw hx hy hce2 h3 h4
        have h2' := hp.symm.trans hps
        simp only [Except.ok.injEq, Prod.mk.injEq] at h2'
        rw [h2'.2] at he
        simp only [List.mem_cons, List.not_mem_nil, or_false] at he
        tauto
      · have hps := parse_ok_of_coerced data nF nS x y accR fw hx hy h3 h4
        have h2' := hp.symm.trans hps
        simp only [Except.ok.injEq, Prod.mk.injEq] at h2'
        rw [h2'.2] at he
        rw [List.mem_append] at he
        rcases he with he | he
        · by_cases hr : latInRange x
          · rw [if_pos hr] at he
            exact absurd he (by simp)
          · rw [if_neg hr] at he
            simp only [List.mem_cons, List.not_mem_nil, or_false] at he
            tauto
        · by_cases hr : lonInRange y
          · rw [if_pos hr] at he
            exact absurd he (by simp)
          · rw [if_neg hr] at he
            simp only [List.mem_cons, List.not_mem_nil, or_false] at he
            tauto

/-- C9 witness: a payload whose photo value is absent and whose coordinate
values coerce normalizes without an exception. -/
theorem claim9_witness :
    ∃ r, parse_report_payload [("lat", JVal.int 1), ("lon", JVal.int 2)] "N" "S" = .ok r := by
  apply (claim9_normalizer_totality_characterized
    [("lat", JVal.int 1), ("lon", JVal.int 2)] "N" "S").1.mpr
  refine ⟨?_, ?_, ?_, trivial⟩
  · intro e he
    exact absurd he (by intro h; exact nomatch h)
  · intro e he
    exact absurd he (by intro h; exact nomatch h)
  · intro v e hv
    exact absurd hv (by intro h; exact nomatch h)

/-- C9 counterexample: the claim as stated is false — the normalizer raises
`TypeError` on a truthy non-string photo value, and it raises an uncaught
`OverflowError` on a 401-digit integer latitude even with no photo value at
all, so it is not total over arbitrary JSON values. -/
theorem claim9_counterexample :
    parse_report_payload [("lat", JVal.int 0), ("lon", JVal.int 1), ("foto_base64", JVal.int 7)]
      "N" "S" = .error .typeErr ∧
    parse_report_payload [("lat", JVal.int ((10 ^ 400 : ℕ) : ℤ)), ("lon", JVal.int 1)]
      "N" "S" = .error .overflowErr :=
  ⟨rfl, rfl⟩

/-- C10: the `fecha` of every successfully normalized record is a string:
the winning client-supplied `fecha`/`timestamp` value of any JSON type is
converted with Python `str`, and when both keys are absent (or null) the
full-precision UTC clock reading taken at normalization time is used. -/
theorem claim10_fecha_stringified_or_clock
    (data : List (String × JVal)) (nF nS : String) (p : Payload) (errs : List String)
    (hp : parse_report_payload data nF nS = .ok (p, errs)) :
    (∀ v : JVal, pick data ["fecha", "timestamp"] = some v → p.fecha = pyStrJ v) ∧
    (pick data ["fecha", "timestamp"] = none → p.fecha = nF) := by
  obtain ⟨latR, errsLat, lonR, errsLon, accR, fw, h1, h2, h3, h4⟩ :=
    parse_ok_inv data nF nS p errs hp
  have heq := parse_eq_of_stages data nF nS latR errsLat lonR errsLon accR fw h1 h2 h3 h4
  have h2' := hp.symm.trans heq
  simp only [Except.ok.injEq, Prod.mk.injEq] at h2'
  have hfe : p.fecha =
      (match pick data ["fecha", "timestamp"] with
       | some v => pyStrJ v
       | Option.none => nF) := by
    rw [h2'.1]
  constructor
  · intro v hv
    rw [hfe, hv]
  · intro hv
    rw [hfe, hv]

/-- C10 witness: a numeric `fecha` is stored as its string form. -/
theorem claim10_witness :
    parse_report_payload [("lat", JVal.int 1), ("lon", JVal.int 2), ("fecha", JVal.int 5)]
        "N" "S" =
      .ok ({ lat := PyVal.f (.fin 1), lon := PyVal.f (.fin 2), fecha := "5",
             foto_base64 := PyVal.none, mime := PyVal.none, filename := PyVal.none,
             accuracy := PyVal.none, created_at := "S" }, []) ∧
    ({ lat := PyVal.f (.fin 1), lon := PyVal.f (.fin 2), fecha := "5",
       foto_base64 := PyVal.none, mime := PyVal.none, filename := PyVal.none,
       accuracy := PyVal.none, created_at := "S" } : Payload).fecha = pyStrJ (JVal.int 5) :=
  ⟨rfl,
   (claim10_fecha_stringified_or_clock
      [("lat", JVal.int 1), ("lon", JVal.int 2), ("fecha", JVal.int 5)] "N" "S"
      { lat := PyVal.f (.fin 1), lon := PyVal.f (.fin 2), fecha := "5",
        foto_base64 := PyVal.none, mime := PyVal.none, filename := PyVal.none,
        accuracy := PyVal.none, created_at := "S" } [] rfl).1 (JVal.int 5) rfl⟩

/-- C4: for every store state, `GET /reportes` returns with status 200
exactly the stored rows whose `lat` and `lon` are both non-null, ordered by
id descending; a row with a null `lat` or `lon` never appears in the output
even if it exists in storage. -/
theorem claim4_listar_filters_and_sorts (st : Store) :
    (listar_reportes st).2 = 200 ∧
    (listar_reportes st).1.Perm (st.rows.filter rowVisible) ∧
    List.Pairwise (fun a b : Row => b.id ≤ a.id) (listar_reportes st).1 ∧
    (∀ r : Row, r ∈ (listar_reportes st).1 ↔
      (r ∈ st.rows ∧ r.lat ≠ SQLVal.null ∧ r.lon ≠ SQLVal.null)) := by
  refine ⟨rfl, sortDesc_perm _, sortDesc_pairwise _, ?_⟩
  intro r
  show r ∈ sortDesc (st.rows.filter rowVisible) ↔ _
  rw [(sortDesc_perm (st.rows.filter rowVisible)).mem_iff, List.mem_filter]
  simp [rowVisible, and_assoc]

/-- C6: `clean_b64` photo-text hygiene.  If a string starts with a
`data:<media-type>;base64,` URI prefix (`<media-type>` a non-empty run of
non-semicolon characters), exactly that leading prefix is stripped; a string
admitting no such decomposition is returned unchanged; an absent photo value
and the empty string pass through `clean_b64` unchanged. -/
theorem claim6_clean_b64_strips_data_uri :
    (∀ (t rest : List Char), t ≠ [] → ';' ∉ t →
      stripDataUri (String.mk ("data:".toList ++ t ++ ";base64,".toList ++ rest)) =
        String.mk rest) ∧
    (∀ s : String,
      (¬ ∃ t rest : List Char, t ≠ [] ∧ ';' ∉ t ∧
          s.toList = "data:".toList ++ t ++ ";base64,".toList ++ rest) →
      stripDataUri s = s) ∧
    clean_b64 Option.none = .ok Option.none ∧
    clean_b64 (some (JVal.str "")) = .ok (some (JVal.str "")) := by
  refine ⟨?_, ?_, rfl, rfl⟩
  · intro t rest ht hsemi
    have hlist : (String.mk ("data:".toList ++ t ++ ";base64,".toList ++ rest)).toList =
        "data:".toList ++ (t ++ (';' :: ("base64,".toList ++ rest))) := by
      simp [List.append_assoc]
    have htw := takeWhile_all_append t ';' ("base64,".toList ++ rest)
      (fun c => c ≠ ';')
      (fun c hc => by
        simp only [decide_eq_true_eq]
        intro hceq
        exact hsemi (hceq ▸ hc))
      (by simp)
    have hd : dropLit ";base64,".toList (';' :: ("base64,".toList ++ rest)) = some rest :=
      dropLit_self_append ";base64,".toList rest
    simp only [stripDataUri, hlist, dropLit_self_append, htw.1, htw.2, hd]
    rw [if_neg (by simpa [List.isEmpty_iff] using ht)]
  · intro s hno
    unfold stripDataUri
    split
    · rfl
    · next rest hdrop =>
      have hs : s.toList = "data:".toList ++ rest := dropLit_sound _ _ _ hdrop
      by_cases hemp : (rest.takeWhile (fun c => c ≠ ';')).isEmpty
      · rw [if_pos hemp]
      · rw [if_neg hemp]
        split
        · next after hdrop2 =>
          exfalso
          apply hno
          refine ⟨rest.takeWhile (fun c => c ≠ ';'), after, ?_, ?_, ?_⟩
          · simpa [List.isEmpty_iff] using hemp
          · intro hmem
            have := List.mem_takeWhile_imp hmem
            simp at this
          · have hsplit : rest.takeWhile (fun c => c ≠ ';') ++
                rest.dropWhile (fun c => c ≠ ';') = rest :=
              List.takeWhile_append_dropWhile _ _
            have hrest : rest.dropWhile (fun c => c ≠ ';') = ";base64,".toList ++ after :=
              dropLit_sound _ _ _ hdrop2
            have key : "data:".toList ++ rest.takeWhile (fun c => c ≠ ';') ++
                ";base64,".toList ++ after = "data:".toList ++ rest := by
              calc "data:".toList ++ rest.takeWhile (fun c => c ≠ ';') ++
                  ";base64,".toList ++ after
                  = "data:".toList ++ (rest.takeWhile (fun c => c ≠ ';') ++
                      rest.dropWhile (fun c => c ≠ ';')) := by
                    rw [hrest]
                    simp [List.append_assoc]
                _ = "data:".toList ++ rest := by rw [hsplit]
            exact hs.trans key.symm
        · rfl

/-- C6 witness: the spec's concrete example, `data:image/png;base64,QUJD`
is stored as `QUJD`. -/
theorem claim6_witness :
    stripDataUri (String.mk ("data:".toList ++ "image/png".toList ++
        ";base64,".toList ++ "QUJD".toList)) = String.mk "QUJD".toList ∧
    stripDataUri "data:image/png;base64,QUJD" = "QUJD" :=
  have h := claim6_clean_b64_strips_data_uri.1 "image/png".toList "QUJD".toList
    (by decide) (by decide)
  ⟨h, h⟩

/-- C8 (amended): `init_db` is idempotent and performs additive schema
evolution limited to the four columns introduced after the original schema:
on an absent database it creates the table with the full current column
set; on an existing table it appends exactly the missing ones among `mime`,
`filename`, `accuracy`, `created_at` (in that order), each filled with null
in existing rows, and never drops, renames or alters existing columns or
row data; a second run changes nothing. -/
theorem claim8_init_db_additive_evolution :
    init_db Option.none = { cols := baseCols, rows := [] } ∧
    (∀ t : Table,
      (init_db (some t)).cols = t.cols ++ altersOf t ∧
      (init_db (some t)).rows =
        t.rows.map (fun r => r ++ (altersOf t).map (fun c => (c, SQLVal.null)))) ∧
    (∀ db : Option Table, init_db (some (init_db db)) = init_db db) := by
  refine ⟨?_, fun t => ?_, fun db => ?_⟩
  · simp [init_db, altersOf, baseCols]
  · constructor
    · simp [init_db, foldl_addCol]
    · simp [init_db, foldl_addCol]
  · have hcols : ∀ c ∈ ["mime", "filename", "accuracy", "created_at"],
        c ∈ (init_db db).cols := by
      intro c hc
      cases db with
      | none =>
        simp only [init_db, altersOf, baseCols]
        fin_cases hc <;> simp
      | some t =>
        have ht : (init_db (some t)).cols = t.cols ++ altersOf t := by
          simp [init_db, foldl_addCol]
        rw [ht, List.mem_append]
        by_cases hin : c ∈ t.cols
        · exact Or.inl hin
        · refine Or.inr ?_
          fin_cases hc <;> simp [altersOf] <;> simp_all
    have halters : altersOf (init_db db) = [] := by
      simp only [altersOf,
        if_pos (hcols "mime" (by simp)),
        if_pos (hcols "filename" (by simp)),
        if_pos (hcols "accuracy" (by simp)),
        if_pos (hcols "created_at" (by simp))]
      rfl
    show (altersOf (init_db db)).foldl addCol (init_db db) = init_db db
    rw [halters]
    rfl

/-- C8 counterexample: the claim as stated fails — a pre-existing table
missing the base column `lat` (part of the current column set) does not get
it added; `init_db` only ever adds the four newer columns. -/
theorem claim8_counterexample :
    "lat" ∈ baseCols ∧
    "lat" ∉ (init_db (some { cols := ["id", "fecha"], rows := [] })).cols := by
  constructor
  · simp [baseCols]
  · simp [init_db, altersOf, foldl_addCol, addCol]

end ReportApp
